import Mathlib

/-!
# Verification of `astrbot_plugin_error_pro` (src/main.py)

Shallow embedding of the plugin's reply pipeline: error-marker detection,
the AI explanation helper `_get_ai_explanation`, the admin notifier
`_send_error_to_admin`, and the keyword-triggered provider-switch
controller `_maybe_switch_provider_on_keyword` with its revert timers.

Python strings are Lean `String`s; Python `dict`s keyed by session are
association lists; `asyncio` tasks become an explicit pool of pending
timers plus a queue of cancelled tasks whose `finally` blocks have not yet
run (the host event loop runs them after the current handler yields).
External collaborators (provider registry, conversation manager, admin
transport, HTTP endpoint) are oracles passed in as data.
-/

namespace ErrorPro

/-! ## Python string primitives -/

/-- Prefix test on character lists: `isPrefixL n h` is true when `n` is a
prefix of `h`. -/
def isPrefixL : List Char → List Char → Bool
  | [], _ => true
  | _ :: _, [] => false
  | a :: as, b :: bs => a == b && isPrefixL as bs

/-- Substring test: `containsL n h` is true when `n` occurs as a
contiguous sublist of `h` (Python `n in h` on the characters). -/
def containsL (nee : List Char) : List Char → Bool
  | [] => isPrefixL nee []
  | c :: t => isPrefixL nee (c :: t) || containsL nee t

/-- Python `needle in hay` for strings (substring containment). -/
def pyIn (needle hay : String) : Bool :=
  containsL needle.data hay.data

/-- Python `str.lower()`, modelled as per-character lowering.
(`Char.toLower` lowers ASCII; the fixed Chinese markers are untouched by
both `str.lower` and `Char.toLower`.) -/
def pyLower (s : String) : String :=
  String.mk (s.data.map Char.toLower)

/-- Python `str.isdigit()` as used on admin ids: non-empty and all digits. -/
def pyIsDigit (s : String) : Bool :=
  !s.data.isEmpty && s.data.all Char.isDigit

/-! ## Configuration (constructor of `ErrorFilter`, main.py lines 16-50).
Field defaults mirror the `config.get(..., default)` defaults. -/

structure Config where
  block_error_messages : Bool := true
  notify_admin : Bool := true
  enable_ai_explanation : Bool := false
  ai_api_key : String := ""
  block_ai_explanation_and_send_admin : Bool := false
  switch_on_keyword_enable : Bool := false
  switch_keywords : String := ""
  switch_provider_id : String := ""
  switch_revert_seconds : Int := -1
  switch_block_message : Bool := true
  switch_retry_reply_enable : Bool := true
  deriving DecidableEq

/-- The fixed error-marker list (main.py line 157; the identical fallback
keyword list appears at line 265). -/
def errorKeywords : List String :=
  ["请求失败", "错误类型", "错误信息", "调用失败", "处理失败", "描述失败", "获取模型列表失败"]

/-! ## `_get_ai_explanation` (main.py lines 52-125) -/

/-- Outcome of reading the first choice's `message.content`:
`some s` when the access yields the string `s`, `none` when any of the
nested accesses would raise (missing key / non-string), which the outer
`except Exception` turns into a `None` return. -/
abbrev Choice := Option String

/-- Result of `await response.json()`: `malformed` when parsing raises,
otherwise the (optional) `choices` array. -/
inductive JsonBody
  | malformed
  | parsed (choices : Option (List Choice))
  deriving DecidableEq

/-- Outcome of the HTTP POST in `_get_ai_explanation`. -/
inductive HttpOutcome
  | timeout
  | netError
  | response (status : Nat) (body : JsonBody)
  deriving DecidableEq

/-- The response-handling part of `_get_ai_explanation`
(main.py lines 104-125): only a 200 response whose JSON has a non-empty
`choices` array with a readable first content yields a (stripped) string;
every other outcome falls through to `return None`, exceptions included. -/
def handleAiResponse : HttpOutcome → Option String
  | .timeout => none
  | .netError => none
  | .response status body =>
    if status = 200 then
      match body with
      | .malformed => none
      | .parsed none => none
      | .parsed (some []) => none
      | .parsed (some (c :: _)) =>
        match c with
        | some s => some s.trim
        | none => none
    else none

/-- Model of `_get_ai_explanation` (main.py lines 52-125). Returns the explanation
(or `none`) together with whether an HTTP call was issued. The guard at
lines 54-55 short-circuits before any network activity. -/
def getAiExplanation (cfg : Config) (out : HttpOutcome) : Option String × Bool :=
  if !cfg.enable_ai_explanation || cfg.ai_api_key = "" then (none, false)
  else (handleAiResponse out, true)

/-! ## Keyword parsing (main.py lines 257-265) -/

/-- Separator characters of the regex `[，,;；\s]+` used to split
`switch_keywords`. -/
def isSepChar (c : Char) : Bool :=
  c == ',' || c == '，' || c == ';' || c == '；' || c.isWhitespace

/-- Split a character list at every separator character. Splitting at each
separator (rather than at runs) yields extra empty tokens, which the
caller filters out exactly as the Python comprehension
`[k.strip() for k in re.split(...) if k and k.strip()]` does; tokens
contain no whitespace (whitespace is a separator), so `strip` is the
identity on the survivors. -/
def splitSepsAux : List Char → List Char → List (List Char)
  | [], acc => [acc.reverse]
  | c :: rest, acc =>
    if isSepChar c then acc.reverse :: splitSepsAux rest []
    else splitSepsAux rest (c :: acc)

/-- The keyword list used by `_maybe_switch_provider_on_keyword`: parsed
from `switch_keywords`, falling back to the default error markers when the
parse yields nothing (main.py lines 258-265). -/
def keywordsOf (cfg : Config) : List String :=
  let ks := ((splitSepsAux cfg.switch_keywords.data []).map
      (fun l => String.mk l)).filter (fun k => !(k == ""))
  if ks.isEmpty then errorKeywords else ks

/-- Case-insensitive keyword match (main.py lines 267-269):
`any((kw or '').lower() in msg_l for kw in keywords)` with
`msg_l = message_str.lower()`. -/
def kwMatch (cfg : Config) (msg : String) : Bool :=
  (keywordsOf cfg).any (fun kw => pyIn (pyLower kw) (pyLower msg))

/-! ## Association lists for the session-keyed dicts -/

/-- Python `d.get(k)` on an association list. -/
def lookupA {α : Type} (l : List (String × α)) (k : String) : Option α :=
  (l.find? (fun p => p.1 == k)).map (fun p => p.2)

/-- Python `d[k] = v`. -/
def insertA {α : Type} (l : List (String × α)) (k : String) (v : α) :
    List (String × α) :=
  (l.filter (fun p => !(p.1 == k))) ++ [(k, v)]

/-- Python `d.pop(k, None)` (the removal effect). -/
def eraseA {α : Type} (l : List (String × α)) (k : String) :
    List (String × α) :=
  l.filter (fun p => !(p.1 == k))

/-! ## Provider-switch controller state -/

/-- One pending revert task created by `asyncio.create_task(_revert())`
(main.py line 343). The closure captures the session key, the switch
target, the previous provider id and the `separate` flag read at switch
time. -/
structure Timer where
  tid : Nat
  umo : String
  target : String
  prevId : String
  sep : Bool
  deriving DecidableEq

/-- The plugin's mutable state together with the host's provider registry
and the event loop's task bookkeeping.

* `pending` — revert tasks that are live: created, not cancelled, not yet
  fired. A task whose `cancel()` has been called can no longer reach its
  provider mutation (the `CancelledError` is raised at the `sleep`).
* `cleanupQueue` — session keys of cancelled tasks whose
  `except CancelledError / finally` bodies have not run yet; the event
  loop runs them after the current handler yields.
* `revertTasks` / `switchRecords` — the dicts `self._revert_tasks` and
  `self._switch_records` (task handles modelled by their ids).
* `sessProv` / `globalProv` — the registry's session-scoped and global
  provider selection; `get_using_provider(umo)` reads the former under
  session separation and the latter otherwise. -/
structure SysState where
  pending : List Timer
  cleanupQueue : List String
  revertTasks : List (String × Nat)
  switchRecords : List (String × (String × String))
  sessProv : List (String × String)
  globalProv : Option String
  nextId : Nat
  deriving DecidableEq

/-- Model of `self.context.get_using_provider(umo=umo)` (main.py lines
288, 327). -/
def getUsing (sep : Bool) (s : SysState) (umo : String) : Option String :=
  if sep then lookupA s.sessProv umo else s.globalProv

/-- Model of `provider_manager.set_provider(provider_id=pid, umo=scope)`
(main.py lines 297-307, 329-333): session-scoped when a session key is
given, global otherwise. -/
def setProv (scope : Option String) (pid : String) (s : SysState) : SysState :=
  match scope with
  | some u => { s with sessProv := insertA s.sessProv u pid }
  | none => { s with globalProv := some pid }

/-- Python truthiness of the optional `prev_id` string
(`None` and `""` are falsy). -/
def pyTruthyOpt : Option String → Bool
  | none => false
  | some x => !(x == "")

/-! ## Event state (the mutable result handle) -/

/-- A component of a result chain: an object with a `.text` attribute, a
plain `str`, or anything else (skipped by the flattener). -/
inductive Comp
  | textComp (t : String)
  | strComp (s : String)
  | other
  deriving DecidableEq

/-- The `chain` attribute of a result: absent/falsy, a `str`, or an
iterable of components. -/
inductive ChainVal
  | noChain
  | str (s : String)
  | comps (l : List Comp)
  deriving DecidableEq

/-- An event result: its `get_plain_text()` rendering and its `chain`. -/
structure ResultVal where
  plain : String
  chain : ChainVal
  deriving DecidableEq

/-- The mutable part of the event seen by the hook: the current result and
whether `stop_event()` has been called. -/
structure EventState where
  result : Option ResultVal
  stopped : Bool
  deriving DecidableEq

/-- Python truthiness of the `chain` attribute (`if chain:` line 138). -/
def chainTruthy : ChainVal → Bool
  | .noChain => false
  | .str s => !(s == "")
  | .comps l => !l.isEmpty

/-- Text contributed by one chain component (main.py lines 142-146):
`.text` attribute wins, a plain `str` contributes itself, everything else
is skipped. -/
def compText : Comp → String
  | .textComp t => t
  | .strComp s => s
  | .other => ""

/-- The chain-flattening fallback (main.py lines 135-147). -/
def flattenChain (c : ChainVal) : String :=
  if chainTruthy c then
    match c with
    | .noChain => ""
    | .str s => s
    | .comps l => l.foldl (fun acc comp => acc ++ compText comp) ""
  else ""

/-- The `message_str` computed at main.py lines 133-147: the plain text
when non-empty, otherwise the flattened chain. -/
def effectiveMessage (r : ResultVal) : String :=
  if r.plain == "" then flattenChain r.chain else r.plain

/-! ## Host-side oracles -/

/-- External collaborators, fixed for one hook invocation: whether
`get_provider_by_id(switch_provider_id)` resolves, the
`provider_settings.separate_provider` flag, the outcome of
`_reply_with_switched_provider` and the reply it would install, the HTTP
outcome the AI endpoint would produce, the configured admin ids
(`admins_id`, already stringified), and which private-message deliveries
succeed. -/
structure HostEnv where
  registryHasTarget : Bool
  separate : Bool
  retrySucceeds : Bool
  retryReply : ResultVal
  aiOut : HttpOutcome
  admins : List String
  deliverOk : String → Bool

/-! ## `_maybe_switch_provider_on_keyword` (main.py lines 247-361) -/

/-- Model of `self.switch_block_message and self._intercept(event)` (main.py lines
275, 285, 293, 357): with the toggle on, `_intercept` stops the event,
clears its result and returns `True`; with it off, `and` short-circuits
and the event is untouched. -/
def interceptMaybe (cfg : Config) (s : SysState) (ev : EventState) :
    Bool × SysState × EventState :=
  if cfg.switch_block_message then
    (true, s, { ev with result := none, stopped := true })
  else (false, s, ev)

/-- Model of `_maybe_switch_provider_on_keyword` (main.py lines 247-361). Returns
the handler's boolean together with the updated system and event state.

The switch body (lines 296-343): perform the provider switch
(session-scoped under separation, global otherwise), cancel and pop any
revert task registered for this session, record the switch, and schedule
a revert task when `switch_revert_seconds > 0` and `prev_id` is truthy.
Cancelling removes the old task from the live pool immediately and
enqueues its pending `finally` cleanup. When retry-reply is enabled and
succeeds, the retry installs its reply and stops the event (lines
348-352, 409-414); otherwise the block toggle decides interception. -/
def maybeSwitchProviderOnKeyword (cfg : Config) (env : HostEnv)
    (umo : String) (msg : String) (s : SysState) (ev : EventState) :
    Bool × SysState × EventState :=
  if !cfg.switch_on_keyword_enable then (false, s, ev)
  else if !kwMatch cfg msg then (false, s, ev)
  else if cfg.switch_provider_id == "" then interceptMaybe cfg s ev
  else if !env.registryHasTarget then interceptMaybe cfg s ev
  else
    let prevId := getUsing env.separate s umo
    if prevId == some cfg.switch_provider_id then interceptMaybe cfg s ev
    else
      let s1 := setProv (if env.separate then some umo else none)
        cfg.switch_provider_id s
      let s2 := match lookupA s1.revertTasks umo with
        | some tid =>
          { s1 with
            pending := s1.pending.filter (fun t => !(t.tid == tid)),
            cleanupQueue := s1.cleanupQueue ++ [umo],
            revertTasks := eraseA s1.revertTasks umo }
        | none => s1
      let s3 := { s2 with
        switchRecords := insertA s2.switchRecords umo
          (cfg.switch_provider_id, (prevId.getD "")) }
      let s4 :=
        if decide (0 < cfg.switch_revert_seconds) && pyTruthyOpt prevId then
          { s3 with
            pending := s3.pending ++
              [⟨s3.nextId, umo, cfg.switch_provider_id, prevId.getD "",
                env.separate⟩],
            revertTasks := insertA s3.revertTasks umo s3.nextId,
            nextId := s3.nextId + 1 }
        else s3
      if cfg.switch_retry_reply_enable && env.retrySucceeds then
        (true, s4, { ev with result := some env.retryReply, stopped := true })
      else interceptMaybe cfg s4 ev

/-- The body of `_revert` once the sleep finishes (main.py lines 326-341):
the fired task leaves the live pool, re-reads the session's provider, and
only when it still equals the switch target restores the previous
provider; the `finally` block pops both dict entries for the session key.
Firing a task id not in the pool is a no-op. -/
def fireTimer (s : SysState) (tid : Nat) : SysState :=
  match s.pending.find? (fun t => t.tid == tid) with
  | none => s
  | some t =>
    let s0 := { s with pending := s.pending.filter (fun x => !(x.tid == tid)) }
    let s1 :=
      if getUsing t.sep s0 t.umo = some t.target then
        setProv (if t.sep then some t.umo else none) t.prevId s0
      else s0
    { s1 with
      revertTasks := eraseA s1.revertTasks t.umo,
      switchRecords := eraseA s1.switchRecords t.umo }

/-- The `except asyncio.CancelledError: pass / finally:` tail of a
cancelled `_revert` task (main.py lines 335-341), run by the event loop
after the cancelling handler yields: it pops `_revert_tasks[umo]` and
`_switch_records[umo]` — whatever those entries hold by then. -/
def cancelledCleanup (s : SysState) : SysState :=
  match s.cleanupQueue with
  | [] => s
  | umo :: rest =>
    { s with
      cleanupQueue := rest,
      revertTasks := eraseA s.revertTasks umo,
      switchRecords := eraseA s.switchRecords umo }

/-- An external (manual) provider change for a session, performed through
the host outside the plugin. -/
def manualSet (s : SysState) (umo pid : String) : SysState :=
  { s with sessProv := insertA s.sessProv umo pid }

/-! ## `_send_error_to_admin` (main.py lines 190-245) -/

/-- The notification text assembled at main.py lines 233-239 for one
admin: group or private wording, with the AI explanation appended when
present. -/
def buildAdminMessage (isGroup : Bool) (groupName chatId userName
    messageStr : String) (ai : Option String) : String :=
  let base :=
    if isGroup then
      "主人，我在群聊 " ++ groupName ++ "（" ++ chatId ++ "） 中和 [" ++
        userName ++ "] 聊天出现错误了: " ++ messageStr
    else
      "主人，我在和 " ++ userName ++ "（" ++ chatId ++ "） 私聊时出现错误了: " ++
        messageStr
  match ai with
  | some a => base ++ "\nAI解释：" ++ a
  | none => base

/-- The delivery loop of `_send_error_to_admin` (main.py lines 229-245):
iterate over `admins_id`, skip non-numeric ids, and send to each numeric
id. The single `try/except` WRAPS THE WHOLE LOOP, so the first failing
send raises out of the loop and is caught outside it: the failed admin
and every admin after it receive nothing. Returns the ids actually
delivered to; the exception never escapes `_send_error_to_admin`. -/
def deliverLoop (ok : String → Bool) : List String → List String
  | [] => []
  | a :: rest =>
    if pyIsDigit a then
      if ok a then a :: deliverLoop ok rest
      else []
    else deliverLoop ok rest

/-! ## `on_decorating_result` (main.py lines 127-188) -/

/-- Observable outcome of one run of the `on_decorating_result` hook. -/
structure PipeOut where
  result : Option ResultVal
  stopped : Bool
  adminDelivered : List String
  adminCalled : Bool
  httpCalled : Bool
  sys : SysState

/-- The `on_decorating_result` hook (main.py lines 127-188): bail out on
a missing result or empty effective text; give the switch controller
first refusal; then detect error markers (case-sensitive), optionally ask
the AI for an explanation, notify admins and block/replace the reply
according to the toggles. -/
def onDecoratingResult (cfg : Config) (env : HostEnv) (umo : String)
    (s : SysState) (ev : EventState) : PipeOut :=
  match ev.result with
  | none =>
    { result := ev.result, stopped := ev.stopped, adminDelivered := [],
      adminCalled := false, httpCalled := false, sys := s }
  | some r =>
    let msg := effectiveMessage r
    if msg == "" then
      { result := ev.result, stopped := ev.stopped, adminDelivered := [],
        adminCalled := false, httpCalled := false, sys := s }
    else
      let sw := maybeSwitchProviderOnKeyword cfg env umo msg s ev
      if sw.1 then
        { result := sw.2.2.result, stopped := sw.2.2.stopped,
          adminDelivered := [], adminCalled := false, httpCalled := false,
          sys := sw.2.1 }
      else
        let s1 := sw.2.1
        let ev1 := sw.2.2
        if errorKeywords.any (fun k => pyIn k msg) then
          let aiPair :=
            if cfg.enable_ai_explanation then getAiExplanation cfg env.aiOut
            else (none, false)
          let ai := aiPair.1
          if ai.isSome && cfg.block_ai_explanation_and_send_admin then
            let delivered := deliverLoop env.deliverOk env.admins
            if cfg.block_error_messages then
              { result := none, stopped := true, adminDelivered := delivered,
                adminCalled := true, httpCalled := aiPair.2, sys := s1 }
            else
              { result := ev1.result, stopped := ev1.stopped,
                adminDelivered := delivered, adminCalled := true,
                httpCalled := aiPair.2, sys := s1 }
          else
            let delivered :=
              if cfg.notify_admin then deliverLoop env.deliverOk env.admins
              else []
            if cfg.block_error_messages then
              { result :=
                  match ai with
                  | some a =>
                    some { plain := a, chain := .comps [.textComp a] }
                  | none => none,
                stopped := true, adminDelivered := delivered,
                adminCalled := cfg.notify_admin, httpCalled := aiPair.2,
                sys := s1 }
            else
              { result := ev1.result, stopped := ev1.stopped,
                adminDelivered := delivered, adminCalled := cfg.notify_admin,
                httpCalled := aiPair.2, sys := s1 }
        else
          { result := ev1.result, stopped := ev1.stopped,
            adminDelivered := [], adminCalled := false, httpCalled := false,
            sys := s1 }

/-! ## Spec-side definition for the explanation generator -/

/-- Specification of the explanation generator's outcome, written from the
spec's words (§4.2): on HTTP 200 with a non-empty choices array, the
trimmed content of the first choice's message; on any other outcome
(non-200, timeout, malformed JSON — which covers an unreadable first
content — network exception, or empty choices), `None`. Stated separately
from `handleAiResponse` so the two can be compared. -/
def explainSpec : HttpOutcome → Option String
  | .response status (.parsed (some (some s :: _))) =>
    if status = 200 then some s.trim else none
  | _ => none

/-! ## Concrete scenarios

Shared concrete inputs used by the counterexample and witness theorems
below. -/

/-- A host environment with a resolvable switch target, session-scoped
provider separation, a failing retry path, no AI endpoint contact and no
admins. -/
def wEnv : HostEnv :=
  { registryHasTarget := true, separate := true, retrySucceeds := false,
    retryReply := { plain := "", chain := .noChain },
    aiOut := .timeout, admins := [], deliverOk := fun _ => true }

/-- An initial system state: session `sess` is on provider `p1`, no
timers, no records. -/
def wSys0 : SysState :=
  { pending := [], cleanupQueue := [], revertTasks := [],
    switchRecords := [], sessProv := [("sess", "p1")], globalProv := none,
    nextId := 0 }

/-- An event with no result yet. -/
def wEv0 : EventState := { result := none, stopped := false }

/-- Configuration for the revert-timer scenarios: keyword `fail`, target
provider `p2`, a 30-second revert window, no interception and no retry
(so the switch path itself is isolated). -/
def bugCfg : Config :=
  { switch_on_keyword_enable := true, switch_keywords := "fail",
    switch_provider_id := "p2", switch_revert_seconds := 30,
    switch_block_message := false, switch_retry_reply_enable := false }

/-- Step 1 of the revert-timer interleaving: a keyword reply switches
`sess` from `p1` to `p2` and registers revert task 0. -/
def bugS1 : SysState :=
  (maybeSwitchProviderOnKeyword bugCfg wEnv ("sess") ("fail a") wSys0 wEv0).2.1

/-- Step 2: the provider for `sess` is manually changed to `p3` (so a
later keyword switch is not idempotent). -/
def bugS2 : SysState := manualSet bugS1 ("sess") ("p3")

/-- Step 3: a second keyword reply within the revert window: task 0 is
cancelled and popped, the switch to `p2` is re-done and revert task 1 is
registered at `_revert_tasks["sess"]`. -/
def bugS3 : SysState :=
  (maybeSwitchProviderOnKeyword bugCfg wEnv ("sess") ("fail b") bugS2 wEv0).2.1

/-- Step 4: the event loop now runs cancelled task 0's
`except CancelledError / finally` tail, which pops
`_revert_tasks["sess"]` — the entry that by now holds live task 1. -/
def bugS4 : SysState := cancelledCleanup bugS3

/-- Step 5: the provider for `sess` is manually changed to `p4`. -/
def bugS5 : SysState := manualSet bugS4 ("sess") ("p4")

/-- Step 6: a third keyword reply: `"sess" in self._revert_tasks` is now
false, so live task 1 is not cancelled, and a fresh revert task 2 is
created for the same session. -/
def bugS6 : SysState :=
  (maybeSwitchProviderOnKeyword bugCfg wEnv ("sess") ("fail c") bugS5 wEv0).2.1

/-- Configuration for the no-error-marker counterexample: switch feature
enabled with the custom keyword `timeout`, interception on, no revert, no
retry. -/
def cfgNoMarker : Config :=
  { switch_on_keyword_enable := true, switch_keywords := "timeout",
    switch_provider_id := "p2", switch_revert_seconds := -1,
    switch_block_message := true, switch_retry_reply_enable := false }

/-- An outgoing reply whose text contains the word `timeout` but none of
the fixed error markers. -/
def evNoMarker : EventState :=
  { result := some { plain := "timeout happened", chain := .noChain },
    stopped := false }

/-! ## Helper lemmas -/

@[simp]
theorem setProv_pending (scope : Option String) (pid : String)
    (s : SysState) : (setProv scope pid s).pending = s.pending := by
  cases scope <;> rfl

@[simp]
theorem setProv_cleanupQueue (scope : Option String) (pid : String)
    (s : SysState) : (setProv scope pid s).cleanupQueue = s.cleanupQueue := by
  cases scope <;> rfl

@[simp]
theorem setProv_revertTasks (scope : Option String) (pid : String)
    (s : SysState) : (setProv scope pid s).revertTasks = s.revertTasks := by
  cases scope <;> rfl

@[simp]
theorem setProv_switchRecords (scope : Option String) (pid : String)
    (s : SysState) : (setProv scope pid s).switchRecords = s.switchRecords := by
  cases scope <;> rfl

@[simp]
theorem setProv_nextId (scope : Option String) (pid : String)
    (s : SysState) : (setProv scope pid s).nextId = s.nextId := by
  cases scope <;> rfl

/-- Looking up a key just inserted by `insertA` yields the inserted value. -/
theorem lookupA_insertA {α : Type} (l : List (String × α)) (k : String)
    (v : α) : lookupA (insertA l k v) k = some v := by
  have hnone : List.find? (fun p => p.1 == k)
      (l.filter (fun p => !(p.1 == k))) = none := by
    rw [List.find?_eq_none]
    intro x hx
    have hmem := (List.mem_filter.mp hx).2
    simp at hmem ⊢
    exact hmem
  unfold lookupA insertA
  rw [List.find?_append, hnone]
  simp [List.find?]

/-- When the switch feature is off, or no keyword matches, the controller
returns `False` without touching any state (main.py lines 254-255,
269-271). -/
theorem maybeSwitch_no_trigger (cfg : Config) (env : HostEnv)
    (umo msg : String) (s : SysState) (ev : EventState)
    (h : cfg.switch_on_keyword_enable = false ∨ kwMatch cfg msg = false) :
    maybeSwitchProviderOnKeyword cfg env umo msg s ev = (false, s, ev) := by
  unfold maybeSwitchProviderOnKeyword
  rcases h with h | h <;> simp [h]

/-- The response handler of `_get_ai_explanation` agrees with the spec's
description of the explanation generator on every HTTP outcome. -/
theorem handleAiResponse_eq_explainSpec (out : HttpOutcome) :
    handleAiResponse out = explainSpec out := by
  match out with
  | .timeout => rfl
  | .netError => rfl
  | .response status body =>
    match body with
    | .malformed => simp [handleAiResponse, explainSpec]
    | .parsed none => simp [handleAiResponse, explainSpec]
    | .parsed (some []) => simp [handleAiResponse, explainSpec]
    | .parsed (some (none :: rest)) => simp [handleAiResponse, explainSpec]
    | .parsed (some (some s :: rest)) => simp [handleAiResponse, explainSpec]

/-! ## Claim theorems -/

/-- C1: the claimed invariant — at most one pending revert timer per
session key at every point of execution — is violated by the code. In the
concrete interleaving `bugS1 … bugS6` (switch, manual change, second
switch within the revert window, the cancelled first task's `finally`
cleanup, another manual change, third switch), the cancelled task's
cleanup pops `_revert_tasks["sess"]` while that entry holds the live
second task; the third switch therefore finds no registered task, cancels
nothing, and creates a second live revert timer for the same session:
after `bugS6` two pending revert timers coexist for session `sess`. The
middle conjuncts exhibit the mechanism: after the stale cleanup the dict
entry is gone although task 1 is still pending. -/
theorem two_pending_revert_timers_coexist :
    lookupA bugS4.revertTasks ("sess") = none ∧
    bugS4.pending.map (fun t => t.tid) = [1] ∧
    ¬ ((bugS6.pending.filter (fun t => t.umo == ("sess"))).length ≤ 1) := by
  decide

/-- C2: when the revert timer fires while the session's active provider
has been changed to a third provider (neither the switch target nor the
previous provider), the re-check at main.py line 328 fails and the timer
performs no provider mutation: both the session-scoped and the global
provider selections are untouched. -/
theorem revert_noop_when_third_provider (s : SysState) (tid : Nat)
    (t : Timer) (z : String)
    (hfind : s.pending.find? (fun x => x.tid == tid) = some t)
    (hz : getUsing t.sep s t.umo = some z)
    (hz1 : z ≠ t.target) (hz2 : z ≠ t.prevId) :
    (fireTimer s tid).sessProv = s.sessProv ∧
    (fireTimer s tid).globalProv = s.globalProv := by
  unfold fireTimer
  rw [hfind]
  dsimp only
  rw [if_neg]
  · exact ⟨rfl, rfl⟩
  · intro hcontra
    have hcur : getUsing t.sep s t.umo = some t.target := by
      simpa [getUsing] using hcontra
    rw [hz] at hcur
    exact hz1 (Option.some.inj hcur)

/-- Witness for C2 at a concrete input: session `sess` was switched to
`p2` with previous provider `p1`, a timer is pending, and the provider
was manually changed to `p9` before the timer fires. -/
theorem revert_noop_when_third_provider_witness :
    (SysState.mk [⟨0, "sess", "p2", "p1", true⟩] [] [("sess", 0)] []
        [("sess", "p9")] none 1).pending.find? (fun x => x.tid == 0) =
      some ⟨0, "sess", "p2", "p1", true⟩ ∧
    getUsing true (SysState.mk [⟨0, "sess", "p2", "p1", true⟩] []
        [("sess", 0)] [] [("sess", "p9")] none 1) ("sess") = some ("p9") ∧
    (fireTimer (SysState.mk [⟨0, "sess", "p2", "p1", true⟩] [] [("sess", 0)]
        [] [("sess", "p9")] none 1) 0).sessProv = [("sess", "p9")] := by
  refine ⟨by decide, by decide, ?_⟩
  have h := revert_noop_when_third_provider
    (SysState.mk [⟨0, "sess", "p2", "p1", true⟩] [] [("sess", 0)] []
      [("sess", "p9")] none 1) 0 ⟨0, "sess", "p2", "p1", true⟩ ("p9")
    (by decide) (by decide) (by decide) (by decide)
  exact h.1

/-- C6: with AI explanation disabled, or with an empty API key, the
explanation generator returns `None` immediately and issues no HTTP call
(main.py lines 54-55). -/
theorem ai_disabled_no_network_call (cfg : Config) (out : HttpOutcome)
    (h : cfg.enable_ai_explanation = false ∨ cfg.ai_api_key = "") :
    getAiExplanation cfg out = (none, false) := by
  unfold getAiExplanation
  rcases h with h | h <;> simp [h]

/-- Witness for C6 at the default configuration (AI disabled) and a
would-be 200 response. -/
theorem ai_disabled_no_network_call_witness :
    ({} : Config).enable_ai_explanation = false ∧
    getAiExplanation {} (.response 200 (.parsed (some [some ("ok")]))) =
      (none, false) :=
  ⟨rfl, ai_disabled_no_network_call {}
    (.response 200 (.parsed (some [some ("ok")]))) (Or.inl rfl)⟩

/-- C4: for every call that reaches the HTTP request (AI enabled, key
configured), the result of `_get_ai_explanation` is exactly what the spec
prescribes for each HTTP outcome (`explainSpec`): the trimmed first
choice content on a well-formed 200 response, `None` on every other
outcome — and the function is total, so no exception reaches the caller. -/
theorem explanation_matches_spec (cfg : Config) (out : HttpOutcome)
    (h1 : cfg.enable_ai_explanation = true) (h2 : cfg.ai_api_key ≠ "") :
    (getAiExplanation cfg out).1 = explainSpec out ∧
    (getAiExplanation cfg out).2 = true := by
  unfold getAiExplanation
  simp [h1, h2, handleAiResponse_eq_explainSpec out]

/-- Witness for C4: AI enabled with key `k`, a 200 response whose first
choice content is `" hi "`; the result is the trimmed `"hi"`. -/
theorem explanation_matches_spec_witness :
    ({ enable_ai_explanation := true, ai_api_key := "k" } :
        Config).enable_ai_explanation = true ∧
    ({ enable_ai_explanation := true, ai_api_key := "k" } :
        Config).ai_api_key ≠ ("") ∧
    (getAiExplanation { enable_ai_explanation := true, ai_api_key := "k" }
        (.response 200 (.parsed (some [some (" hi ")])))).1 =
      explainSpec (.response 200 (.parsed (some [some (" hi ")]))) :=
  ⟨rfl, by decide,
    (explanation_matches_spec _ _ rfl (by decide)).1⟩

/-- C5 counterexample: the claim says a failure delivering to one admin
does not prevent delivery to the remaining admins. With admins
`["1", "2"]` and a transport that fails exactly on `1`, admin `2` is a
valid numeric id whose delivery would succeed, yet nothing is delivered
to it: the single `try/except` wraps the whole loop (main.py lines
229-245), so the first failure aborts the loop. -/
theorem admin_failure_stops_remaining_deliveries :
    pyIsDigit ("2") = true ∧
    (fun a => !(a == "1")) ("2") = true ∧
    ("2") ∉ deliverLoop (fun a => !(a == "1")) [("1"), ("2")] := by
  decide

/-- C5 amended: the notifier walks the configured admin list in order,
skipping non-numeric ids, and delivers the formatted message to each
numeric admin until the first delivery failure; that failure is caught
outside the loop (so nothing propagates to the reply pipeline) but aborts
delivery to all remaining admins. Formally the delivered ids are the
longest `ok`-prefix of the numeric admins. -/
theorem admin_delivery_is_prefix_until_failure (ok : String → Bool)
    (admins : List String) :
    deliverLoop ok admins = (admins.filter pyIsDigit).takeWhile ok := by
  induction admins with
  | nil => rfl
  | cons a rest ih =>
    by_cases hd : pyIsDigit a = true
    · by_cases hk : ok a = true
      · simp [deliverLoop, hd, hk, List.takeWhile, ih]
      · simp [deliverLoop, hd, hk, List.takeWhile,
          Bool.not_eq_true _ ▸ hk]
    · simp [deliverLoop, hd, ih]

/-- C3: when the session is already on the configured target provider,
the controller logs and returns without any registry mutation or new
Switch Record (main.py lines 291-293); the returned value — and whether
the event is intercepted — is decided by `switch_block_message` alone. -/
theorem switch_idempotent_when_on_target (cfg : Config) (env : HostEnv)
    (umo msg : String) (s : SysState) (ev : EventState)
    (h1 : cfg.switch_on_keyword_enable = true)
    (h2 : kwMatch cfg msg = true)
    (h3 : cfg.switch_provider_id ≠ "")
    (h4 : env.registryHasTarget = true)
    (h5 : getUsing env.separate s umo = some cfg.switch_provider_id) :
    maybeSwitchProviderOnKeyword cfg env umo msg s ev =
      (cfg.switch_block_message, s,
        if cfg.switch_block_message then
          { ev with result := none, stopped := true }
        else ev) := by
  unfold maybeSwitchProviderOnKeyword interceptMaybe
  by_cases hb : cfg.switch_block_message = true <;>
    simp [h1, h2, h3, h4, h5, hb]

/-- Witness for C3: keyword `timeout` matches, and session `sess` is
already on the target `p2`; the state is returned unchanged and the event
is intercepted because `switch_block_message` is on. -/
theorem switch_idempotent_when_on_target_witness :
    kwMatch cfgNoMarker ("timeout!") = true ∧
    getUsing wEnv.separate (SysState.mk [] [] [] [] [("sess", "p2")] none 0)
      ("sess") = some cfgNoMarker.switch_provider_id ∧
    maybeSwitchProviderOnKeyword cfgNoMarker wEnv ("sess") ("timeout!")
      (SysState.mk [] [] [] [] [("sess", "p2")] none 0) wEv0 =
      (cfgNoMarker.switch_block_message,
        SysState.mk [] [] [] [] [("sess", "p2")] none 0,
        if cfgNoMarker.switch_block_message then
          { wEv0 with result := none, stopped := true }
        else wEv0) :=
  ⟨by decide, by decide,
    switch_idempotent_when_on_target cfgNoMarker wEnv ("sess") ("timeout!")
      (SysState.mk [] [] [] [] [("sess", "p2")] none 0) wEv0
      rfl (by decide) (by decide) rfl (by decide)⟩

/-- C7: on a successful switch, a revert task is created (a fresh task id
is allocated) exactly when the configured revert delay is positive and a
previous provider id exists (non-`None`, non-empty); in particular a
configured `-1` never schedules one (main.py line 322). -/
theorem revert_scheduled_iff_positive_delay_and_prev (cfg : Config)
    (env : HostEnv) (umo msg : String) (s : SysState) (ev : EventState)
    (h1 : cfg.switch_on_keyword_enable = true)
    (h2 : kwMatch cfg msg = true)
    (h3 : cfg.switch_provider_id ≠ "")
    (h4 : env.registryHasTarget = true)
    (h5 : getUsing env.separate s umo ≠ some cfg.switch_provider_id) :
    ((maybeSwitchProviderOnKeyword cfg env umo msg s ev).2.1.nextId =
        s.nextId + 1 ↔
      0 < cfg.switch_revert_seconds ∧
        pyTruthyOpt (getUsing env.separate s umo) = true) ∧
    (cfg.switch_revert_seconds = -1 →
      (maybeSwitchProviderOnKeyword cfg env umo msg s ev).2.1.nextId =
        s.nextId) := by
  have hnext : (maybeSwitchProviderOnKeyword cfg env umo msg s ev).2.1.nextId
      = if decide (0 < cfg.switch_revert_seconds) &&
            pyTruthyOpt (getUsing env.separate s umo) then
          s.nextId + 1
        else s.nextId := by
    unfold maybeSwitchProviderOnKeyword interceptMaybe
    cases hlk : lookupA s.revertTasks umo <;>
      cases hsp : decide (0 < cfg.switch_revert_seconds) &&
          pyTruthyOpt (getUsing env.separate s umo) <;>
        cases hrt : cfg.switch_retry_reply_enable && env.retrySucceeds <;>
          by_cases hb : cfg.switch_block_message = true <;>
            simp [h1, h2, h3, h4, h5, hlk, hsp, hrt, hb]
  constructor
  · rw [hnext]
    cases hsp : decide (0 < cfg.switch_revert_seconds) &&
        pyTruthyOpt (getUsing env.separate s umo) <;>
      simp_all [Bool.and_eq_true, decide_eq_true_eq]
  · intro hneg
    rw [hnext, if_neg]
    simp [hneg]

/-- Witness for C7: keyword `fail`, target `p2`, session on `p1`, delay
30: a task id is allocated, and both sides of the iff hold. -/
theorem revert_scheduled_iff_witness :
    kwMatch bugCfg ("fail") = true ∧
    getUsing wEnv.separate wSys0 ("sess") ≠
      some bugCfg.switch_provider_id ∧
    (((maybeSwitchProviderOnKeyword bugCfg wEnv ("sess") ("fail") wSys0
          wEv0).2.1.nextId = wSys0.nextId + 1 ↔
        0 < bugCfg.switch_revert_seconds ∧
          pyTruthyOpt (getUsing wEnv.separate wSys0 ("sess")) = true) ∧
      (bugCfg.switch_revert_seconds = -1 →
        (maybeSwitchProviderOnKeyword bugCfg wEnv ("sess") ("fail") wSys0
            wEv0).2.1.nextId = wSys0.nextId)) :=
  ⟨by decide, by decide,
    revert_scheduled_iff_positive_delay_and_prev bugCfg wEnv ("sess")
      ("fail") wSys0 wEv0 rfl (by decide) (by decide) rfl (by decide)⟩

/-- C10: a keyword switch performed while the session has no resolvable
current provider records `(target, "")` as the Switch Record and
schedules no revert task even though a positive revert delay is
configured, so the override is never automatically reverted (main.py
lines 319, 322). -/
theorem switch_without_previous_provider (cfg : Config) (env : HostEnv)
    (umo msg : String) (s : SysState) (ev : EventState)
    (h1 : cfg.switch_on_keyword_enable = true)
    (h2 : kwMatch cfg msg = true)
    (h3 : cfg.switch_provider_id ≠ "")
    (h4 : env.registryHasTarget = true)
    (h5 : getUsing env.separate s umo = none)
    (h6 : 0 < cfg.switch_revert_seconds) :
    lookupA (maybeSwitchProviderOnKeyword cfg env umo msg s
        ev).2.1.switchRecords umo = some (cfg.switch_provider_id, "") ∧
    (maybeSwitchProviderOnKeyword cfg env umo msg s ev).2.1.nextId =
      s.nextId := by
  have h5ne : getUsing env.separate s umo ≠ some cfg.switch_provider_id := by
    rw [h5]; exact fun h => Option.noConfusion h
  have hfalse : pyTruthyOpt (getUsing env.separate s umo) = false := by
    rw [h5]; rfl
  unfold maybeSwitchProviderOnKeyword interceptMaybe
  cases hlk : lookupA s.revertTasks umo <;>
    cases hrt : cfg.switch_retry_reply_enable && env.retrySucceeds <;>
      by_cases hb : cfg.switch_block_message = true <;>
        simp [h1, h2, h3, h4, h5, h5ne, hfalse, hlk, hrt, hb,
          pyTruthyOpt, lookupA_insertA]

/-- Witness for C10: session `sess` has no provider at all; after the
keyword switch the record is `(p2, "")` and no task id was allocated
although the delay is 30. -/
theorem switch_without_previous_provider_witness :
    getUsing wEnv.separate (SysState.mk [] [] [] [] [] none 0) ("sess") =
      none ∧
    0 < bugCfg.switch_revert_seconds ∧
    (lookupA (maybeSwitchProviderOnKeyword bugCfg wEnv ("sess") ("fail")
        (SysState.mk [] [] [] [] [] none 0) wEv0).2.1.switchRecords
      ("sess") = some (bugCfg.switch_provider_id, "") ∧
      (maybeSwitchProviderOnKeyword bugCfg wEnv ("sess") ("fail")
          (SysState.mk [] [] [] [] [] none 0) wEv0).2.1.nextId =
        (SysState.mk [] [] [] [] [] none 0).nextId) :=
  ⟨by decide, by decide,
    switch_without_previous_provider bugCfg wEnv ("sess") ("fail")
      (SysState.mk [] [] [] [] [] none 0) wEv0 rfl (by decide) (by decide)
      rfl (by decide) (by decide)⟩

/-- C8 counterexample: a reply containing none of the fixed error markers
is not always left untouched. With the switch feature enabled on the
custom keyword `timeout` and `switch_block_message` on, the reply
`timeout happened` (no error marker) triggers the keyword switch, which
stops the event and clears its result — so the pipeline is not a no-op as
claimed. -/
theorem no_marker_reply_still_intercepted :
    errorKeywords.any (fun k => pyIn k ("timeout happened")) = false ∧
    evNoMarker.stopped = false ∧
    (onDecoratingResult cfgNoMarker wEnv ("sess") wSys0 evNoMarker).stopped
      = true ∧
    (onDecoratingResult cfgNoMarker wEnv ("sess") wSys0 evNoMarker).result
      = none := by
  decide

/-- C8 amended: for every outgoing reply whose text contains none of the
fixed error markers AND for which the keyword-switch does not trigger
(the feature is disabled, or no configured/fallback keyword matches
case-insensitively), the pipeline is a no-op: result unchanged, event not
stopped beyond its prior state, no admin notification, no HTTP call, and
the switch/timer state untouched. -/
theorem pipeline_noop_without_markers (cfg : Config) (env : HostEnv)
    (umo : String) (s : SysState) (ev : EventState) (r : ResultVal)
    (hr : ev.result = some r)
    (hmk : errorKeywords.any (fun k => pyIn k (effectiveMessage r)) = false)
    (hsw : cfg.switch_on_keyword_enable = false ∨
      kwMatch cfg (effectiveMessage r) = false) :
    (onDecoratingResult cfg env umo s ev).result = ev.result ∧
    (onDecoratingResult cfg env umo s ev).stopped = ev.stopped ∧
    (onDecoratingResult cfg env umo s ev).adminDelivered = [] ∧
    (onDecoratingResult cfg env umo s ev).adminCalled = false ∧
    (onDecoratingResult cfg env umo s ev).httpCalled = false ∧
    (onDecoratingResult cfg env umo s ev).sys = s := by
  have hns := maybeSwitch_no_trigger cfg env umo (effectiveMessage r) s ev
    hsw
  by_cases hm : (effectiveMessage r == "") = true <;>
    simp [onDecoratingResult, hr, hm, hns, hmk]

/-- Witness for C8 amended: switch feature disabled (default config) and
the marker-free reply `hello`. -/
theorem pipeline_noop_without_markers_witness :
    ({ result := some { plain := "hello", chain := .noChain },
        stopped := false } : EventState).result =
      some { plain := "hello", chain := .noChain } ∧
    errorKeywords.any (fun k => pyIn k
      (effectiveMessage { plain := "hello", chain := .noChain })) = false ∧
    ((onDecoratingResult {} wEnv ("sess") wSys0
        { result := some { plain := "hello", chain := .noChain },
          stopped := false }).result =
      ({ result := some { plain := "hello", chain := .noChain },
          stopped := false } : EventState).result ∧
      (onDecoratingResult {} wEnv ("sess") wSys0
        { result := some { plain := "hello", chain := .noChain },
          stopped := false }).sys = wSys0) := by
  refine ⟨rfl, by decide, ?_⟩
  have h := pipeline_noop_without_markers {} wEnv ("sess") wSys0
    { result := some { plain := "hello", chain := .noChain },
      stopped := false }
    { plain := "hello", chain := .noChain } rfl (by decide) (Or.inl rfl)
  exact ⟨h.1, h.2.2.2.2.2⟩

/-- C9: when the event has no result, or its result renders no plain text
and its chain flattens to the empty string, the hook returns with no side
effects at all: no switch attempt, no error detection, no admin
notification, no HTTP call, and no mutation of the result or of the
plugin state (main.py lines 129-151). -/
theorem pipeline_noop_on_empty_message (cfg : Config) (env : HostEnv)
    (umo : String) (s : SysState) (ev : EventState)
    (h : ev.result = none ∨ ∃ r, ev.result = some r ∧ r.plain = "" ∧
      flattenChain r.chain = "") :
    (onDecoratingResult cfg env umo s ev).result = ev.result ∧
    (onDecoratingResult cfg env umo s ev).stopped = ev.stopped ∧
    (onDecoratingResult cfg env umo s ev).adminDelivered = [] ∧
    (onDecoratingResult cfg env umo s ev).adminCalled = false ∧
    (onDecoratingResult cfg env umo s ev).httpCalled = false ∧
    (onDecoratingResult cfg env umo s ev).sys = s := by
  rcases h with h | ⟨r, hr, hp, hc⟩
  · simp [onDecoratingResult, h]
  · have hmsg : effectiveMessage r = "" := by
      simp [effectiveMessage, hp, hc]
    simp [onDecoratingResult, hr, hmsg]

/-- Witness for C9 at an event whose result yields no plain text and
whose chain holds only a non-textual component. -/
theorem pipeline_noop_on_empty_message_witness :
    ({ result := some { plain := "", chain := .comps [.other] },
        stopped := false } : EventState).result =
      some { plain := "", chain := .comps [.other] } ∧
    flattenChain (.comps [.other]) = ("") ∧
    ((onDecoratingResult {} wEnv ("sess") wSys0
        { result := some { plain := "", chain := .comps [.other] },
          stopped := false }).result =
      ({ result := some { plain := "", chain := .comps [.other] },
          stopped := false } : EventState).result ∧
      (onDecoratingResult {} wEnv ("sess") wSys0
        { result := some { plain := "", chain := .comps [.other] },
          stopped := false }).stopped = false ∧
      (onDecoratingResult {} wEnv ("sess") wSys0
        { result := some { plain := "", chain := .comps [.other] },
          stopped := false }).sys = wSys0) := by
  refine ⟨rfl, by decide, ?_⟩
  have h := pipeline_noop_on_empty_message {} wEnv ("sess") wSys0
    { result := some { plain := "", chain := .comps [.other] },
      stopped := false }
    (Or.inr ⟨{ plain := "", chain := .comps [.other] }, rfl, rfl,
      by decide⟩)
  exact ⟨h.1, h.2.1, h.2.2.2.2.2⟩

end ErrorPro
